import Mathlib

/-!
# Verification of the weather-ingestion job (two variants)

Shallow embedding of `src/client-1/src/job/main.py` and
`src/client-2-dlthub/src/job/main.py`.

Modelling conventions:
* A parsed JSON value (the `Dict[str, Any]` returned by `response.json()`)
  is the inductive type `Json`; JSON numbers are carried as exact rationals
  (the only arithmetic the job performs on them is epoch + offset, which is
  integer arithmetic, so no floating-point rounding is ever exercised).
* Python exceptions that the extraction code can raise are the enumeration
  `PyErr`; fallible Python expressions become `Except PyErr _` values, and a
  `try/except (E1, E2)` block becomes `catchGuard` over the list of caught
  error kinds.
* `datetime.datetime` values (always UTC-aware here) are represented by
  their microsecond count since the Unix epoch, the resolution CPython
  stores; `datetime.fromtimestamp` and `timedelta(seconds=...)` enforce
  CPython's documented range limits, failing with an (uncaught by this
  code) `overflowError` outside them.
* Environment access (`os.getenv`) is a function `String → Option String`.
-/

/-- A parsed JSON value, as produced by `response.json()`. -/
inductive Json where
  | null
  | bool (b : Bool)
  | num (q : ℚ)
  | str (s : String)
  | arr (elems : List Json)
  | obj (fields : List (String × Json))

/-- The Python exception classes this code can raise.  `overflowError`
also stands for the `ValueError`/`OSError` that `datetime` raises on
out-of-range timestamps: none of these is in any `except` clause of the
job, so distinguishing them further would change nothing. -/
inductive PyErr where
  | keyError
  | indexError
  | typeError
  | attributeError
  | overflowError
deriving DecidableEq

/-- Python subscript `x["k"]` (string key): key lookup on a dict,
`TypeError` on anything else. -/
def Json.getKey : Json → String → Except PyErr Json
  | .obj fields, k =>
      match fields.lookup k with
      | some v => .ok v
      | none => .error .keyError
  | _, _ => .error .typeError

/-- Python subscript `x[i]` (non-negative int index): list indexing with
`IndexError` out of range, string indexing yielding a one-character string,
`KeyError` on a dict (JSON-derived dicts have only string keys), and
`TypeError` on anything else. -/
def Json.getIdx : Json → Nat → Except PyErr Json
  | .arr xs, i =>
      match xs.get? i with
      | some v => .ok v
      | none => .error .indexError
  | .str s, i =>
      match s.data.get? i with
      | some c => .ok (.str (String.singleton c))
      | none => .error .indexError
  | .obj _, _ => .error .keyError
  | _, _ => .error .typeError

/-- Python `x.get(k, d)`: defaulting lookup on a dict, `AttributeError`
on anything else (no other JSON value has a `.get` method). -/
def Json.getD : Json → String → Json → Except PyErr Json
  | .obj fields, k, d => .ok ((fields.lookup k).getD d)
  | _, _, _ => .error .attributeError

/-- Python truthiness of a JSON-derived value (used by `main`'s
`if data:` guard in client-1). -/
def Json.truthy : Json → Bool
  | .null => false
  | .bool b => b
  | .num q => decide (q ≠ 0)
  | .str s => decide (s ≠ "")
  | .arr [] => false
  | .arr (_ :: _) => true
  | .obj [] => false
  | .obj (_ :: _) => true

/-- Python's round-half-to-even of the fraction `n / d` (for `d > 0`),
expressed over the numerator and denominator so that it evaluates by pure
integer arithmetic. -/
def roundHalfEvenND (n : Int) (d : Int) : Int :=
  let f := n.fdiv d
  let r := n - f * d
  if 2 * r < d then f
  else if 2 * r > d then f + 1
  else if f % 2 = 0 then f else f + 1

/-- The microsecond count CPython stores for `q` seconds: `q * 10^6`
rounded half-to-even (exact for the integer timestamps the provider
sends). -/
def usOfSecondsRat (q : ℚ) : Int :=
  roundHalfEvenND (q.num * 1000000) q.den

/-- Microseconds since epoch of `datetime.min` (0001-01-01 00:00:00 UTC). -/
def minDatetimeUs : Int := -62135596800000000

/-- Microseconds since epoch of `datetime.max` (9999-12-31 23:59:59.999999 UTC). -/
def maxDatetimeUs : Int := 253402300799999999

/-- Microseconds of `timedelta.max` (999999999 days, 23:59:59.999999). -/
def tdMaxUs : Int := 999999999 * 86400000000 + 86399999999

/-- Microseconds of `timedelta.min` (-999999999 days). -/
def tdMinUs : Int := -999999999 * 86400000000

/-- The numeric value Python sees in a JSON-derived object where a number
is expected: numbers are themselves, booleans are 0/1 (Python `bool` is an
`int` subclass), everything else is not a number. -/
def pyNumVal : Json → Option ℚ
  | .num q => some q
  | .bool b => some (if b then 1 else 0)
  | _ => none

/-- `datetime.datetime.fromtimestamp(ts, datetime.UTC)`: `TypeError` for a
non-numeric argument, `OverflowError`/`ValueError` outside the representable
datetime range, otherwise the UTC instant in microseconds since the epoch. -/
def fromtimestampJson (j : Json) : Except PyErr Int :=
  match pyNumVal j with
  | none => .error .typeError
  | some q =>
      let us := usOfSecondsRat q
      if minDatetimeUs ≤ us ∧ us ≤ maxDatetimeUs then .ok us
      else .error .overflowError

/-- `datetime.timedelta(seconds=x)`: `TypeError` for a non-numeric
argument, `OverflowError` outside the timedelta range, otherwise the
duration in microseconds. -/
def timedeltaSecondsJson (j : Json) : Except PyErr Int :=
  match pyNumVal j with
  | none => .error .typeError
  | some q =>
      let us := usOfSecondsRat q
      if tdMinUs ≤ us ∧ us ≤ tdMaxUs then .ok us
      else .error .overflowError

/-- `datetime + timedelta`: `OverflowError` when the sum leaves the
representable datetime range. -/
def datetimeAdd (a b : Int) : Except PyErr Int :=
  if minDatetimeUs ≤ a + b ∧ a + b ≤ maxDatetimeUs then .ok (a + b)
  else .error .overflowError

/-- Proleptic-Gregorian civil date from a count of days since 1970-01-01
(Howard Hinnant's `civil_from_days`). Returns (year, month, day). -/
def civilFromDays (z : Int) : Int × Nat × Nat :=
  let zs := z + 719468
  let era := zs.ediv 146097
  let doe := (zs - era * 146097).toNat
  let yoe := (doe - doe / 1460 + doe / 36524 - doe / 146096) / 365
  let doy := doe - (365 * yoe + yoe / 4 - yoe / 100)
  let mp := (5 * doy + 2) / 153
  let d := doy - (153 * mp + 2) / 5 + 1
  let m := if mp < 10 then mp + 3 else mp - 9
  let y := (yoe : Int) + era * 400 + (if m ≤ 2 then 1 else 0)
  (y, m, d)

/-- Zero-pad a natural number to two digits (`%m`, `%d`, `%H`, `%M`, `%S`). -/
def pad2 (n : Nat) : String :=
  if n < 10 then "0" ++ toString n else toString n

/-- Zero-pad a year to four digits (`%Y` for the years this job can emit). -/
def pad4 (n : Int) : String :=
  let s := toString n.toNat
  if s.length ≥ 4 then s else String.mk (List.replicate (4 - s.length) '0') ++ s

/-- `strftime("%Y-%m-%d %H:%M:%S")` of a UTC instant given in whole
seconds since the epoch. -/
def formatEpochSec (secs : Int) : String :=
  let days := secs.ediv 86400
  let sod := (secs.emod 86400).toNat
  let ymd := civilFromDays days
  pad4 ymd.1 ++ "-" ++ pad2 ymd.2.1 ++ "-" ++ pad2 ymd.2.2 ++ " " ++
    pad2 (sod / 3600) ++ ":" ++ pad2 (sod % 3600 / 60) ++ ":" ++ pad2 (sod % 60)

/-- `strftime("%Y-%m-%d %H:%M:%S")` of a datetime in microseconds since
the epoch (the sub-second part is simply not printed). -/
def formatUs (us : Int) : String :=
  formatEpochSec (us.ediv 1000000)

/-- A `try/except (caught...)` block around a field extraction: a raised
error in the caught list is replaced by the field's placeholder string;
any other error propagates. -/
def catchGuard (caught : List PyErr) (placeholder : String) :
    Except PyErr Json → Except PyErr Json
  | .ok v => .ok v
  | .error e => if e ∈ caught then .ok (.str placeholder) else .error e

/-- The expression `data["weather"][0]["main"]` (both variants). -/
def pathWeather (data : Json) : Except PyErr Json :=
  match data.getKey "weather" with
  | .error e => .error e
  | .ok w =>
      match w.getIdx 0 with
      | .error e => .error e
      | .ok w0 => w0.getKey "main"

/-- The expression `data["weather"][0]["description"]` (both variants). -/
def pathDescription (data : Json) : Except PyErr Json :=
  match data.getKey "weather" with
  | .error e => .error e
  | .ok w =>
      match w.getIdx 0 with
      | .error e => .error e
      | .ok w0 => w0.getKey "description"

/-- The expression `data["main"]["temp"]` (both variants). -/
def pathTemperature (data : Json) : Except PyErr Json :=
  match data.getKey "main" with
  | .error e => .error e
  | .ok m => m.getKey "temp"

/-- The expression `data["main"]["humidity"]` (both variants). -/
def pathHumidity (data : Json) : Except PyErr Json :=
  match data.getKey "main" with
  | .error e => .error e
  | .ok m => m.getKey "humidity"

/-- Client-1's date computation: `data["dt"]`, then
`data.get("timezone", 0)`, `fromtimestamp(..., UTC)`,
`+ timedelta(seconds=offset)`, `strftime("%Y-%m-%d %H:%M:%S")`,
in that evaluation order. -/
def pathDate (data : Json) : Except PyErr Json :=
  match data.getKey "dt" with
  | .error e => .error e
  | .ok ts =>
      match data.getD "timezone" (Json.num 0) with
      | .error e => .error e
      | .ok tz =>
          match fromtimestampJson ts with
          | .error e => .error e
          | .ok utcUs =>
              match timedeltaSecondsJson tz with
              | .error e => .error e
              | .ok tdUs =>
                  match datetimeAdd utcUs tdUs with
                  | .error e => .error e
                  | .ok localUs => .ok (.str (formatUs localUs))

/-- Client-1, `weather_info["weather"]`: `try ... except (IndexError,
KeyError, TypeError)` with placeholder "No weather data available". -/
def fieldWeather (data : Json) : Except PyErr Json :=
  catchGuard [.indexError, .keyError, .typeError] "No weather data available"
    (pathWeather data)

/-- Client-1, `weather_info["description"]`: `try ... except (IndexError,
KeyError, TypeError)` with placeholder "No description available". -/
def fieldDescription (data : Json) : Except PyErr Json :=
  catchGuard [.indexError, .keyError, .typeError] "No description available"
    (pathDescription data)

/-- Client-1, `weather_info["temperature"]`: `try ... except KeyError`
(only!) with placeholder "No temperature available". -/
def fieldTemperature (data : Json) : Except PyErr Json :=
  catchGuard [.keyError] "No temperature available" (pathTemperature data)

/-- Client-1, `weather_info["humidity"]`: `try ... except KeyError`
(only!) with placeholder "No humidity data available". -/
def fieldHumidity (data : Json) : Except PyErr Json :=
  catchGuard [.keyError] "No humidity data available" (pathHumidity data)

/-- Client-1, `weather_info["date"]`: `try ... except (KeyError,
TypeError)` with placeholder "No date available". -/
def fieldDate (data : Json) : Except PyErr Json :=
  catchGuard [.keyError, .typeError] "No date available" (pathDate data)

/-- The normalized record client-1 builds (`weather_info` dict). -/
structure WeatherInfo where
  weather : Json
  description : Json
  temperature : Json
  humidity : Json
  date : Json

/-- Client-1's `extract_weather_information_from_json`: the five guarded
extractions run in source order; an error escaping a guard propagates out
of the function (aborting it), otherwise the five-field record is
returned. -/
def extract_weather_information_from_json (data : Json) :
    Except PyErr WeatherInfo :=
  match fieldWeather data with
  | .error e => .error e
  | .ok w =>
      match fieldDescription data with
      | .error e => .error e
      | .ok d =>
          match fieldTemperature data with
          | .error e => .error e
          | .ok t =>
              match fieldHumidity data with
              | .error e => .error e
              | .ok h =>
                  match fieldDate data with
                  | .error e => .error e
                  | .ok dt => .ok ⟨w, d, t, h, dt⟩

/-- The record client-2's `weather_resource` yields (`observed_at` is a
UTC `datetime`, kept as microseconds since the epoch). -/
structure WeatherRow where
  weather : Json
  description : Json
  temperature : Json
  humidity : Json
  observed_at : Int

/-- The dict literal client-2 yields, evaluated left to right with no
per-field guards: `weather`, `description`, `temperature`, `humidity`,
then `observed_at = datetime.fromtimestamp(data["dt"], timezone.utc)`
(note: no `timezone` offset is read). The first error aborts the whole
construction. -/
def weather_resource_record (data : Json) : Except PyErr WeatherRow :=
  match pathWeather data with
  | .error e => .error e
  | .ok w =>
      match pathDescription data with
      | .error e => .error e
      | .ok d =>
          match pathTemperature data with
          | .error e => .error e
          | .ok t =>
              match pathHumidity data with
              | .error e => .error e
              | .ok h =>
                  match data.getKey "dt" with
                  | .error e => .error e
                  | .ok ts =>
                      match fromtimestampJson ts with
                      | .error e => .error e
                      | .ok us => .ok ⟨w, d, t, h, us⟩

/-- Client-2's `weather_resource` body around the record construction:
`except (KeyError, IndexError, TypeError)` logs and yields nothing;
any other exception propagates out of the generator. `.ok none` means
the resource produced no record. -/
def weather_resource_yield (data : Json) : Except PyErr (Option WeatherRow) :=
  match weather_resource_record data with
  | .ok r => .ok (some r)
  | .error e =>
      if e ∈ ([.keyError, .indexError, .typeError] : List PyErr) then .ok none
      else .error e

/-- Python truthiness of an optional string: `None` and `""` are falsy
(the only values `os.getenv(...).strip()` / defaults can supply here). -/
def strTruthy : Option String → Bool
  | none => false
  | some s => decide (s ≠ "")

/-- The `missing` list comprehension in `validate_config` (both variants):
the names of the falsy parameters, in the dict's insertion order
LATITUDE, LONGITUDE, API_KEY. -/
def missingNames (lat lon api_key : Option String) : List String :=
  (if strTruthy lat then [] else ["LATITUDE"]) ++
    (if strTruthy lon then [] else ["LONGITUDE"]) ++
      (if strTruthy api_key then [] else ["API_KEY"])

/-- `validate_config` (textually identical in both variants): returns the
boolean result paired with the list of parameter names in the logged
"Missing required configuration" message (empty when nothing is logged). -/
def validate_config (lat lon api_key : Option String) : Bool × List String :=
  if !(strTruthy lat && strTruthy lon && strTruthy api_key) then
    (false, missingNames lat lon api_key)
  else (true, [])

/-- An environment: `os.getenv` as a partial map from names to values. -/
def Env : Type := String → Option String

/-- Python `str.strip()` with no argument: drop leading and trailing
whitespace (computed structurally on the character list so that it
evaluates inside the kernel). -/
def pyStripStr (s : String) : String :=
  String.mk (((s.data.dropWhile Char.isWhitespace).reverse.dropWhile
    Char.isWhitespace).reverse)

/-- `os.getenv(name).strip()` for client-1: `AttributeError` when the
variable is absent (`None.strip()`), otherwise the stripped string. -/
def getenvStrip (env : Env) (name : String) : Except PyErr String :=
  match env name with
  | none => .error .attributeError
  | some s => .ok (pyStripStr s)

/-- The module-level configuration of client-1 after the eight
`os.getenv(...).strip()` lines succeed. -/
structure Client1Config where
  apiKey : String
  lat : String
  lon : String
  dbHost : String
  dbUser : String
  dbPass : String
  dbName : String
  dbPort : String

/-- The environment variables client-1 reads at module level, in source
order. -/
def client1EnvVars : List String :=
  ["OPEN_WEATHER_MAP_API_KEY", "LATITUDE", "LONGITUDE",
   "DB_HOST", "DB_USER", "DB_PASS", "DB_NAME", "DB_PORT"]

/-- Client-1's module-level configuration block (lines 10-19): each read
is `os.getenv(NAME).strip()`, so the first absent variable raises an
uncaught `AttributeError` before `main` ever runs. -/
def client1_load_config (env : Env) : Except PyErr Client1Config :=
  match getenvStrip env "OPEN_WEATHER_MAP_API_KEY" with
  | .error e => .error e
  | .ok apiKey =>
      match getenvStrip env "LATITUDE" with
      | .error e => .error e
      | .ok lat =>
          match getenvStrip env "LONGITUDE" with
          | .error e => .error e
          | .ok lon =>
              match getenvStrip env "DB_HOST" with
              | .error e => .error e
              | .ok dbHost =>
                  match getenvStrip env "DB_USER" with
                  | .error e => .error e
                  | .ok dbUser =>
                      match getenvStrip env "DB_PASS" with
                      | .error e => .error e
                      | .ok dbPass =>
                          match getenvStrip env "DB_NAME" with
                          | .error e => .error e
                          | .ok dbName =>
                              match getenvStrip env "DB_PORT" with
                              | .error e => .error e
                              | .ok dbPort =>
                                  .ok ⟨apiKey, lat, lon, dbHost, dbUser,
                                       dbPass, dbName, dbPort⟩

/-- Outcome of `get_current_weather`: the fetch either fails (a
`requests.exceptions.RequestException` was caught and `None` returned)
or succeeds with a parsed JSON body. -/
inductive FetchOutcome where
  | failure
  | success (data : Json)

/-- What one run of client-1's `main` did after configuration loading:
whether the HTTP fetch was attempted, the record the normalizer returned
(if it was reached and returned), and the record passed to `save_to_db`
(if it was invoked). -/
structure RunResult where
  fetchAttempted : Bool
  normalized : Option WeatherInfo
  saved : Option WeatherInfo

/-- Client-1's `main` (given the loaded configuration and the fetch
outcome): validate, fetch, guard `if data:`, normalize, save.  An
exception escaping the normalizer propagates out of `main` (nothing in
`main` catches it). -/
def client1_main_run (cfg : Client1Config) (fetch : FetchOutcome) :
    Except PyErr RunResult :=
  if (validate_config (some cfg.lat) (some cfg.lon) (some cfg.apiKey)).1 = false
  then .ok ⟨false, none, none⟩
  else
    match fetch with
    | .failure => .ok ⟨true, none, none⟩
    | .success data =>
        if data.truthy then
          match extract_weather_information_from_json data with
          | .error e => .error e
          | .ok info => .ok ⟨true, some info, some info⟩
        else .ok ⟨true, none, none⟩

/-- A whole client-1 process run: module-level config loading, then
`main`.  `.error` means the process died with an uncaught exception. -/
def client1_program (env : Env) (fetch : FetchOutcome) :
    Except PyErr RunResult :=
  match client1_load_config env with
  | .error e => .error e
  | .ok cfg => client1_main_run cfg fetch

/-- The record passed to the Sink Writer by a client-1 run (`none` when
`save_to_db` was never invoked, including when the run crashed). -/
def savedOf : Except PyErr RunResult → Option WeatherInfo
  | .ok r => r.saved
  | .error _ => none

/-- Client-2's module-level configuration: `os.getenv(NAME, "").strip()`,
total (never raises). -/
def client2_load_config (env : Env) : String × String × String :=
  (pyStripStr ((env "OPEN_WEATHER_MAP_API_KEY").getD ""),
   pyStripStr ((env "LATITUDE").getD ""),
   pyStripStr ((env "LONGITUDE").getD ""))

/-- Client-2's resource given the fetch outcome: a caught
`RequestException` yields nothing; otherwise the guarded record
construction runs on the payload. -/
def weather_resource_run (fetch : FetchOutcome) :
    Except PyErr (Option WeatherRow) :=
  match fetch with
  | .failure => .ok none
  | .success data => weather_resource_yield data

/-- What one client-2 process run did: whether the dlt pipeline was
started, and the row handed to it for persistence (if any).  Total:
`main` wraps the pipeline run in `except Exception`, so no exception
escapes the process. -/
structure Client2Run where
  pipelineStarted : Bool
  rowLoaded : Option WeatherRow

/-- A whole client-2 process run: total config loading, validation gate,
then the pipeline run with every exception caught by `main`'s generic
handler. -/
def client2_program (env : Env) (fetch : FetchOutcome) : Client2Run :=
  let cfg := client2_load_config env
  if (validate_config (some cfg.2.1) (some cfg.2.2) (some cfg.1)).1 = false
  then ⟨false, none⟩
  else
    match weather_resource_run fetch with
    | .ok (some row) => ⟨true, some row⟩
    | .ok none => ⟨true, none⟩
    | .error _ => ⟨true, none⟩

/-- The well-formed sample payload from the spec:
`{"weather":[{"main":"Clouds","description":"few clouds"}],
  "main":{"temp":15.5,"humidity":60},"dt":1700000000,"timezone":3600}`. -/
def samplePayload : Json :=
  .obj [("weather", .arr [.obj [("main", .str "Clouds"),
                                ("description", .str "few clouds")]]),
        ("main", .obj [("temp", .num (31 / 2)), ("humidity", .num 60)]),
        ("dt", .num 1700000000), ("timezone", .num 3600)]
theorem catchGuard_ok (caught : List PyErr) (p : String) (v : Json) :
    catchGuard caught p (.ok v) = .ok v := rfl

theorem catchGuard_caught {caught : List PyErr} {e : PyErr} (p : String)
    (h : e ∈ caught) : catchGuard caught p (.error e) = .ok (.str p) := by
  simp [catchGuard, h]

theorem catchGuard_uncaught {caught : List PyErr} {e : PyErr} (p : String)
    (h : e ∉ caught) : catchGuard caught p (.error e) = .error e := by
  simp [catchGuard, h]

theorem getKey_err {j : Json} {k : String} {e : PyErr}
    (h : j.getKey k = .error e) : e = .keyError ∨ e = .typeError := by
  cases j <;> simp only [Json.getKey] at h <;>
    first
      | (cases h; simp)
      | (rename_i fields
         cases hl : fields.lookup k <;> simp [hl] at h
         simp [h.symm])

theorem getIdx_err {j : Json} {i : Nat} {e : PyErr}
    (h : j.getIdx i = .error e) :
    e = .indexError ∨ e = .keyError ∨ e = .typeError := by
  cases j <;> simp only [Json.getIdx] at h
  case null => cases h; simp
  case bool => cases h; simp
  case num => cases h; simp
  case str s =>
    cases hl : s.data.get? i <;> rw [hl] at h <;> simp at h
    simp [h.symm]
  case arr xs =>
    cases hl : xs.get? i <;> rw [hl] at h <;> simp at h
    simp [h.symm]
  case obj => cases h; simp

theorem pathWeather_err {data : Json} {e : PyErr}
    (h : pathWeather data = .error e) :
    e = .indexError ∨ e = .keyError ∨ e = .typeError := by
  unfold pathWeather at h
  cases h1 : data.getKey "weather" with
  | error e1 =>
      simp only [h1] at h
      cases h
      rcases getKey_err h1 with h' | h' <;> simp [h']
  | ok w =>
      simp only [h1] at h
      cases h2 : w.getIdx 0 with
      | error e2 =>
          simp only [h2] at h
          cases h
          exact getIdx_err h2
      | ok w0 =>
          simp only [h2] at h
          rcases getKey_err h with h' | h' <;> simp [h']

theorem pathDescription_err {data : Json} {e : PyErr}
    (h : pathDescription data = .error e) :
    e = .indexError ∨ e = .keyError ∨ e = .typeError := by
  unfold pathDescription at h
  cases h1 : data.getKey "weather" with
  | error e1 =>
      simp only [h1] at h
      cases h
      rcases getKey_err h1 with h' | h' <;> simp [h']
  | ok w =>
      simp only [h1] at h
      cases h2 : w.getIdx 0 with
      | error e2 =>
          simp only [h2] at h
          cases h
          exact getIdx_err h2
      | ok w0 =>
          simp only [h2] at h
          rcases getKey_err h with h' | h' <;> simp [h']

theorem pathTemperature_err {data : Json} {e : PyErr}
    (h : pathTemperature data = .error e) :
    e = .keyError ∨ e = .typeError := by
  unfold pathTemperature at h
  cases h1 : data.getKey "main" with
  | error e1 =>
      simp only [h1] at h
      cases h
      exact getKey_err h1
  | ok m =>
      simp only [h1] at h
      exact getKey_err h

theorem pathHumidity_err {data : Json} {e : PyErr}
    (h : pathHumidity data = .error e) :
    e = .keyError ∨ e = .typeError := by
  unfold pathHumidity at h
  cases h1 : data.getKey "main" with
  | error e1 =>
      simp only [h1] at h
      cases h
      exact getKey_err h1
  | ok m =>
      simp only [h1] at h
      exact getKey_err h

theorem fieldWeather_ok (data : Json) : ∃ v, fieldWeather data = .ok v := by
  unfold fieldWeather
  cases h : pathWeather data with
  | ok v => exact ⟨v, rfl⟩
  | error e =>
      refine ⟨.str "No weather data available", ?_⟩
      apply catchGuard_caught
      rcases pathWeather_err h with h' | h' | h' <;> simp [h']

theorem fieldDescription_ok (data : Json) :
    ∃ v, fieldDescription data = .ok v := by
  unfold fieldDescription
  cases h : pathDescription data with
  | ok v => exact ⟨v, rfl⟩
  | error e =>
      refine ⟨.str "No description available", ?_⟩
      apply catchGuard_caught
      rcases pathDescription_err h with h' | h' | h' <;> simp [h']

theorem fieldTemperature_err {data : Json} {e : PyErr}
    (h : fieldTemperature data = .error e) : e = .typeError := by
  unfold fieldTemperature at h
  cases h1 : pathTemperature data with
  | ok v => simp [h1, catchGuard] at h
  | error e1 =>
      rcases pathTemperature_err h1 with h' | h'
      · subst h'
        rw [h1, catchGuard_caught _ (by simp)] at h
        simp at h
      · subst h'
        rw [h1, catchGuard_uncaught _ (by simp)] at h
        cases h; rfl

theorem fieldHumidity_err {data : Json} {e : PyErr}
    (h : fieldHumidity data = .error e) : e = .typeError := by
  unfold fieldHumidity at h
  cases h1 : pathHumidity data with
  | ok v => simp [h1, catchGuard] at h
  | error e1 =>
      rcases pathHumidity_err h1 with h' | h'
      · subst h'
        rw [h1, catchGuard_caught _ (by simp)] at h
        simp at h
      · subst h'
        rw [h1, catchGuard_uncaught _ (by simp)] at h
        cases h; rfl

theorem extract_ok_fields {data : Json} {rec : WeatherInfo}
    (h : extract_weather_information_from_json data = .ok rec) :
    fieldWeather data = .ok rec.weather ∧
    fieldDescription data = .ok rec.description ∧
    fieldTemperature data = .ok rec.temperature ∧
    fieldHumidity data = .ok rec.humidity ∧
    fieldDate data = .ok rec.date := by
  unfold extract_weather_information_from_json at h
  cases h1 : fieldWeather data with
  | error e => simp [h1] at h
  | ok w =>
    simp only [h1] at h
    cases h2 : fieldDescription data with
    | error e => simp [h2] at h
    | ok d =>
      simp only [h2] at h
      cases h3 : fieldTemperature data with
      | error e => simp [h3] at h
      | ok t =>
        simp only [h3] at h
        cases h4 : fieldHumidity data with
        | error e => simp [h4] at h
        | ok hum =>
          simp only [h4] at h
          cases h5 : fieldDate data with
          | error e => simp [h5] at h
          | ok dt =>
            simp only [h5] at h
            injection h with h'
            subst h'
            exact ⟨rfl, rfl, rfl, rfl, rfl⟩

theorem extract_err_source {data : Json} {e : PyErr}
    (h : extract_weather_information_from_json data = .error e) :
    fieldTemperature data = .error e ∨ fieldHumidity data = .error e ∨
      fieldDate data = .error e := by
  unfold extract_weather_information_from_json at h
  obtain ⟨w, h1⟩ := fieldWeather_ok data
  obtain ⟨d, h2⟩ := fieldDescription_ok data
  simp only [h1, h2] at h
  cases h3 : fieldTemperature data with
  | error e3 =>
      simp only [h3] at h
      injection h with h'
      subst h'
      exact Or.inl rfl
  | ok t =>
    simp only [h3] at h
    cases h4 : fieldHumidity data with
    | error e4 =>
        simp only [h4] at h
        injection h with h'
        subst h'
        exact Or.inr (Or.inl rfl)
    | ok hum =>
      simp only [h4] at h
      cases h5 : fieldDate data with
      | error e5 =>
          simp only [h5] at h
          injection h with h'
          subst h'
          exact Or.inr (Or.inr rfl)
      | ok dt => simp [h5] at h

theorem resource_ok_fields {data : Json} {row : WeatherRow}
    (h : weather_resource_record data = .ok row) :
    pathWeather data = .ok row.weather ∧
    pathDescription data = .ok row.description ∧
    pathTemperature data = .ok row.temperature ∧
    pathHumidity data = .ok row.humidity := by
  unfold weather_resource_record at h
  cases h1 : pathWeather data with
  | error e => simp [h1] at h
  | ok w =>
    simp only [h1] at h
    cases h2 : pathDescription data with
    | error e => simp [h2] at h
    | ok d =>
      simp only [h2] at h
      cases h3 : pathTemperature data with
      | error e => simp [h3] at h
      | ok t =>
        simp only [h3] at h
        cases h4 : pathHumidity data with
        | error e => simp [h4] at h
        | ok hum =>
          simp only [h4] at h
          cases h5 : data.getKey "dt" with
          | error e => simp [h5] at h
          | ok ts =>
            simp only [h5] at h
            cases h6 : fromtimestampJson ts with
            | error e => simp [h6] at h
            | ok us =>
              simp only [h6] at h
              injection h with h'
              subst h'
              exact ⟨rfl, rfl, rfl, rfl⟩

theorem usOfSecondsRat_intCast (n : Int) :
    usOfSecondsRat ((n : Int) : ℚ) = n * 1000000 := by
  unfold usOfSecondsRat roundHalfEvenND
  simp [Rat.num_intCast, Rat.den_intCast]

theorem fromtimestampJson_int {n : Int}
    (h1 : -62135596800 ≤ n) (h2 : n ≤ 253402300799) :
    fromtimestampJson (.num (n : ℚ)) = .ok (n * 1000000) := by
  unfold fromtimestampJson pyNumVal
  simp only [usOfSecondsRat_intCast]
  rw [if_pos ⟨by unfold minDatetimeUs; omega, by unfold maxDatetimeUs; omega⟩]

theorem timedeltaSecondsJson_int {m : Int}
    (h1 : tdMinUs ≤ m * 1000000) (h2 : m * 1000000 ≤ tdMaxUs) :
    timedeltaSecondsJson (.num (m : ℚ)) = .ok (m * 1000000) := by
  unfold timedeltaSecondsJson pyNumVal
  simp only [usOfSecondsRat_intCast]
  rw [if_pos ⟨h1, h2⟩]

theorem datetimeAdd_int {n m : Int}
    (h1 : -62135596800 ≤ n + m) (h2 : n + m ≤ 253402300799) :
    datetimeAdd (n * 1000000) (m * 1000000) = .ok ((n + m) * 1000000) := by
  unfold datetimeAdd
  rw [if_pos ⟨by unfold minDatetimeUs; omega, by unfold maxDatetimeUs; omega⟩]
  congr 1
  ring

theorem formatUs_mul (k : Int) : formatUs (k * 1000000) = formatEpochSec k := by
  unfold formatUs
  congr 1
  exact Int.mul_ediv_cancel k (by norm_num)

theorem pathDate_int {fields : List (String × Json)} {n m : Int}
    (hdt : fields.lookup "dt" = some (.num (n : ℚ)))
    (htz : fields.lookup "timezone" = some (.num (m : ℚ)) ∨
      (fields.lookup "timezone" = none ∧ m = 0))
    (hn1 : -62135596800 ≤ n) (hn2 : n ≤ 253402300799)
    (hs1 : -62135596800 ≤ n + m) (hs2 : n + m ≤ 253402300799)
    (ht1 : tdMinUs ≤ m * 1000000) (ht2 : m * 1000000 ≤ tdMaxUs) :
    pathDate (.obj fields) = .ok (.str (formatEpochSec (n + m))) := by
  have hk : (Json.obj fields).getKey "dt" = .ok (.num (n : ℚ)) := by
    simp [Json.getKey, hdt]
  have hg : (Json.obj fields).getD "timezone" (Json.num 0) = .ok (.num (m : ℚ)) := by
    rcases htz with h | ⟨h, rfl⟩
    · simp [Json.getD, h]
    · simp [Json.getD, h]
  unfold pathDate
  simp only [hk, hg, fromtimestampJson_int hn1 hn2,
    timedeltaSecondsJson_int ht1 ht2, datetimeAdd_int hs1 hs2, formatUs_mul]


/-- **C1, counterexample.** On `{"main": 5}` the claim demands a record
whose temperature is the placeholder string, the other fields extracted;
instead the whole extraction raises an uncaught `TypeError` (`5["temp"]`
is a `TypeError`, and the temperature guard catches only `KeyError`). -/
theorem c1_counterexample :
    extract_weather_information_from_json (.obj [("main", .num 5)]) =
      .error .typeError := by rfl

/-- **C1, amended.** Weather, description (guards catching `IndexError`,
`KeyError`, `TypeError`) never abort extraction: they always produce a
value, substituting their placeholder on any failure of their path; the
date guard substitutes its placeholder on `KeyError`/`TypeError`.
Temperature and humidity catch only `KeyError`: any error escaping their
guards is a `TypeError`, which aborts the whole extraction.  When the
function returns a record, each of its five fields is exactly the result
of that field's own guarded extraction, and when it raises, the error
came from the temperature, humidity or date guard. -/
theorem c1_per_field_boundaries : ∀ data : Json,
    (∃ v, fieldWeather data = .ok v) ∧
    (∃ v, fieldDescription data = .ok v) ∧
    (∀ e, pathWeather data = .error e →
      fieldWeather data = .ok (.str "No weather data available")) ∧
    (∀ e, pathDescription data = .error e →
      fieldDescription data = .ok (.str "No description available")) ∧
    (pathTemperature data = .error .keyError →
      fieldTemperature data = .ok (.str "No temperature available")) ∧
    (pathHumidity data = .error .keyError →
      fieldHumidity data = .ok (.str "No humidity data available")) ∧
    (∀ e, pathDate data = .error e → e = .keyError ∨ e = .typeError →
      fieldDate data = .ok (.str "No date available")) ∧
    (∀ e, fieldTemperature data = .error e → e = .typeError) ∧
    (∀ e, fieldHumidity data = .error e → e = .typeError) ∧
    (∀ rec, extract_weather_information_from_json data = .ok rec →
      fieldWeather data = .ok rec.weather ∧
      fieldDescription data = .ok rec.description ∧
      fieldTemperature data = .ok rec.temperature ∧
      fieldHumidity data = .ok rec.humidity ∧
      fieldDate data = .ok rec.date) ∧
    (∀ e, extract_weather_information_from_json data = .error e →
      fieldTemperature data = .error e ∨ fieldHumidity data = .error e ∨
        fieldDate data = .error e) := by
  intro data
  refine ⟨fieldWeather_ok data, fieldDescription_ok data, ?_, ?_, ?_, ?_, ?_,
    fun e => fieldTemperature_err, fun e => fieldHumidity_err,
    fun rec => extract_ok_fields, fun e => extract_err_source⟩
  · intro e he
    unfold fieldWeather
    rw [he]
    exact catchGuard_caught _ (by rcases pathWeather_err he with h | h | h <;> simp [h])
  · intro e he
    unfold fieldDescription
    rw [he]
    exact catchGuard_caught _
      (by rcases pathDescription_err he with h | h | h <;> simp [h])
  · intro he
    unfold fieldTemperature
    rw [he]
    exact catchGuard_caught _ (by simp)
  · intro he
    unfold fieldHumidity
    rw [he]
    exact catchGuard_caught _ (by simp)
  · intro e he hk
    unfold fieldDate
    rw [he]
    exact catchGuard_caught _ (by rcases hk with h | h <;> simp [h])

/-- Witness for the amended C1 at the concrete input `{}`: the
temperature path fails with `KeyError` and the guard substitutes the
placeholder. -/
theorem c1_boundaries_witness :
    fieldTemperature (.obj []) = .ok (.str "No temperature available") :=
  (c1_per_field_boundaries (.obj [])).2.2.2.2.1 rfl

/-- **C2, counterexample.** With every environment variable absent the
client-1 process dies at module load: `os.getenv(...)` returns `None`
and `None.strip()` raises an uncaught `AttributeError`, so the run
terminates with an uncaught exception before `validate_config` can run,
contradicting the claim. -/
theorem c2_counterexample :
    client1_program (fun _ => none) .failure = .error .attributeError := by rfl

/-- **C2, amended.** When every environment variable client-1 reads at
module level is present, configuration loading succeeds and a failing
validation gate ends the run before any fetch or save (no uncaught
exception).  Client-2's loading is total, and a failing validation gate
ends its run before the pipeline starts.  (An absent variable, however,
crashes client-1 at module load — see the counterexample.) -/
theorem c2_config_safety : ∀ (env : Env) (fetch : FetchOutcome),
    ((∀ v ∈ client1EnvVars, (env v).isSome) →
      ∃ cfg, client1_load_config env = .ok cfg ∧
        ((validate_config (some cfg.lat) (some cfg.lon) (some cfg.apiKey)).1 = false →
          client1_program env fetch = .ok ⟨false, none, none⟩)) ∧
    ((validate_config (some (client2_load_config env).2.1)
        (some (client2_load_config env).2.2)
        (some (client2_load_config env).1)).1 = false →
      client2_program env fetch = ⟨false, none⟩) := by
  intro env fetch
  constructor
  · intro hall
    obtain ⟨s1, h1⟩ := Option.isSome_iff_exists.mp
      (hall "OPEN_WEATHER_MAP_API_KEY" (by simp [client1EnvVars]))
    obtain ⟨s2, h2⟩ := Option.isSome_iff_exists.mp
      (hall "LATITUDE" (by simp [client1EnvVars]))
    obtain ⟨s3, h3⟩ := Option.isSome_iff_exists.mp
      (hall "LONGITUDE" (by simp [client1EnvVars]))
    obtain ⟨s4, h4⟩ := Option.isSome_iff_exists.mp
      (hall "DB_HOST" (by simp [client1EnvVars]))
    obtain ⟨s5, h5⟩ := Option.isSome_iff_exists.mp
      (hall "DB_USER" (by simp [client1EnvVars]))
    obtain ⟨s6, h6⟩ := Option.isSome_iff_exists.mp
      (hall "DB_PASS" (by simp [client1EnvVars]))
    obtain ⟨s7, h7⟩ := Option.isSome_iff_exists.mp
      (hall "DB_NAME" (by simp [client1EnvVars]))
    obtain ⟨s8, h8⟩ := Option.isSome_iff_exists.mp
      (hall "DB_PORT" (by simp [client1EnvVars]))
    have hload : client1_load_config env =
        .ok ⟨pyStripStr s1, pyStripStr s2, pyStripStr s3, pyStripStr s4,
             pyStripStr s5, pyStripStr s6, pyStripStr s7, pyStripStr s8⟩ := by
      unfold client1_load_config getenvStrip
      rw [h1, h2, h3, h4, h5, h6, h7, h8]
    refine ⟨_, hload, fun hv => ?_⟩
    simp only [client1_program, hload, client1_main_run]
    rw [if_pos hv]
  · intro hv
    unfold client2_program
    rw [if_pos hv]

/-- Witness for the amended C2: with every variable set to the empty
string, client-1 loads its configuration, validation fails, and the run
ends with no fetch and no save; client-2 likewise never starts its
pipeline. -/
theorem c2_config_safety_witness :
    client1_program (fun _ => some "") .failure = .ok ⟨false, none, none⟩ ∧
    client2_program (fun _ => some "") .failure = ⟨false, none⟩ := by
  obtain ⟨cfg, hload, himp⟩ :=
    (c2_config_safety (fun _ => some "") .failure).1 (fun v _ => rfl)
  have hcfg : cfg = ⟨"", "", "", "", "", "", "", ""⟩ := by
    have : client1_load_config (fun _ => some "") =
        .ok ⟨"", "", "", "", "", "", "", ""⟩ := by rfl
    rw [this] at hload
    injection hload with h'
    exact h'.symm
  subst hcfg
  exact ⟨himp rfl, (c2_config_safety (fun _ => some "") .failure).2 rfl⟩

/-- **C3.** `validate_config` succeeds exactly when all three parameters
are truthy (present and non-empty); on failure the logged message names
a parameter exactly when that parameter is empty or absent, and names
nothing else. -/
theorem c3_validate_config_names_missing : ∀ lat lon api_key : Option String,
    ((validate_config lat lon api_key).1 = true ↔
      strTruthy lat = true ∧ strTruthy lon = true ∧ strTruthy api_key = true) ∧
    ((validate_config lat lon api_key).1 = false →
      (("LATITUDE" ∈ (validate_config lat lon api_key).2 ↔ strTruthy lat = false) ∧
       ("LONGITUDE" ∈ (validate_config lat lon api_key).2 ↔ strTruthy lon = false) ∧
       ("API_KEY" ∈ (validate_config lat lon api_key).2 ↔ strTruthy api_key = false) ∧
       ∀ x ∈ (validate_config lat lon api_key).2,
         x ∈ ["LATITUDE", "LONGITUDE", "API_KEY"])) := by
  intro lat lon api_key
  unfold validate_config missingNames
  cases hl : strTruthy lat <;> cases ho : strTruthy lon <;>
    cases hk : strTruthy api_key <;> simp

/-- Witness for C3 at a concrete input: latitude empty, longitude set,
API key absent — validation fails and the logged names are exactly
LATITUDE and API_KEY. -/
theorem c3_validate_witness :
    "LATITUDE" ∈ (validate_config (some "") (some "45.0") none).2 ∧
    "LONGITUDE" ∉ (validate_config (some "") (some "45.0") none).2 ∧
    "API_KEY" ∈ (validate_config (some "") (some "45.0") none).2 := by
  obtain ⟨hla, hlo, hk, _⟩ :=
    (c3_validate_config_names_missing (some "") (some "45.0") none).2 rfl
  refine ⟨hla.mpr rfl, ?_, hk.mpr rfl⟩
  intro hmem
  exact absurd (hlo.mp hmem) (by decide)

/-- **C4.** On the spec's sample payload the Normalizer returns
weather "Clouds", description "few clouds", temperature 15.5,
humidity 60, and the date string is epoch 1700000000 shifted by the
3600-second offset, formatted `YYYY-MM-DD HH:MM:SS`. -/
theorem c4_sample_payload :
    extract_weather_information_from_json samplePayload =
      .ok ⟨.str "Clouds", .str "few clouds", .num (31 / 2), .num 60,
           .str "2023-11-14 23:13:20"⟩ ∧
    formatEpochSec (1700000000 + 3600) = "2023-11-14 23:13:20" := by
  constructor <;> rfl

/-- **C5, counterexample.** On the spec's sample payload both variants
succeed, and the first four fields agree, but the persisted timestamps
differ: client-2 stores the UTC instant of `dt` (1700000000 s, i.e.
"2023-11-14 22:13:20"), ignoring the 3600-second `timezone` offset that
client-1 applies ("2023-11-14 23:13:20").  Moreover on the payload `{}`
client-1 produces an all-placeholder record while client-2 yields no
record at all. -/
theorem c5_counterexample :
    weather_resource_record samplePayload =
      .ok ⟨.str "Clouds", .str "few clouds", .num (31 / 2), .num 60,
           1700000000000000⟩ ∧
    extract_weather_information_from_json samplePayload =
      .ok ⟨.str "Clouds", .str "few clouds", .num (31 / 2), .num 60,
           .str "2023-11-14 23:13:20"⟩ ∧
    formatUs 1700000000000000 ≠ "2023-11-14 23:13:20" ∧
    weather_resource_yield (.obj []) = .ok none ∧
    extract_weather_information_from_json (.obj []) =
      .ok ⟨.str "No weather data available", .str "No description available",
           .str "No temperature available", .str "No humidity data available",
           .str "No date available"⟩ :=
  ⟨by rfl, by rfl, by decide, by rfl, by rfl⟩

/-- **C5, amended.** Whenever client-2's resource builds a record and
client-1's normalizer returns one on the same payload, the weather,
description, temperature and humidity fields coincide; the timestamp
fields, however, differ in general (client-2 ignores the `timezone`
offset and stores a datetime rather than a formatted string — see the
counterexample), and on per-field extraction failure client-2 yields
nothing while client-1 degrades to placeholders. -/
theorem c5_variant_agreement : ∀ (data : Json) (row : WeatherRow)
    (rec : WeatherInfo),
    weather_resource_record data = .ok row →
    extract_weather_information_from_json data = .ok rec →
    rec.weather = row.weather ∧ rec.description = row.description ∧
    rec.temperature = row.temperature ∧ rec.humidity = row.humidity := by
  intro data row rec hrow hrec
  obtain ⟨p1, p2, p3, p4⟩ := resource_ok_fields hrow
  obtain ⟨f1, f2, f3, f4, f5⟩ := extract_ok_fields hrec
  have e1 : fieldWeather data = .ok row.weather := by
    unfold fieldWeather; rw [p1]; rfl
  have e2 : fieldDescription data = .ok row.description := by
    unfold fieldDescription; rw [p2]; rfl
  have e3 : fieldTemperature data = .ok row.temperature := by
    unfold fieldTemperature; rw [p3]; rfl
  have e4 : fieldHumidity data = .ok row.humidity := by
    unfold fieldHumidity; rw [p4]; rfl
  have g1 := e1.symm.trans f1
  have g2 := e2.symm.trans f2
  have g3 := e3.symm.trans f3
  have g4 := e4.symm.trans f4
  injection g1 with g1'
  injection g2 with g2'
  injection g3 with g3'
  injection g4 with g4'
  exact ⟨g1'.symm, g2'.symm, g3'.symm, g4'.symm⟩

/-- Witness for the amended C5 at the sample payload. -/
theorem c5_variant_agreement_witness :
    (WeatherInfo.mk (.str "Clouds") (.str "few clouds") (.num (31 / 2))
        (.num 60) (.str "2023-11-14 23:13:20")).weather =
      (WeatherRow.mk (.str "Clouds") (.str "few clouds") (.num (31 / 2))
        (.num 60) 1700000000000000).weather ∧
    (WeatherInfo.mk (.str "Clouds") (.str "few clouds") (.num (31 / 2))
        (.num 60) (.str "2023-11-14 23:13:20")).description =
      (WeatherRow.mk (.str "Clouds") (.str "few clouds") (.num (31 / 2))
        (.num 60) 1700000000000000).description ∧
    (WeatherInfo.mk (.str "Clouds") (.str "few clouds") (.num (31 / 2))
        (.num 60) (.str "2023-11-14 23:13:20")).temperature =
      (WeatherRow.mk (.str "Clouds") (.str "few clouds") (.num (31 / 2))
        (.num 60) 1700000000000000).temperature ∧
    (WeatherInfo.mk (.str "Clouds") (.str "few clouds") (.num (31 / 2))
        (.num 60) (.str "2023-11-14 23:13:20")).humidity =
      (WeatherRow.mk (.str "Clouds") (.str "few clouds") (.num (31 / 2))
        (.num 60) 1700000000000000).humidity :=
  c5_variant_agreement samplePayload _ _ (by rfl) (by rfl)

/-- **C6.** For an integer epoch `dt = n` within `datetime`'s range and a
`timezone` offset that is either an integer `m` (within `timedelta`'s
range, sum in range) or absent (in which case it defaults to `m = 0`),
any record the normalizer returns carries the date string
`formatEpochSec (n + m)` — the UTC instant shifted by the offset and
formatted `YYYY-MM-DD HH:MM:SS`; with `timezone` absent this is the UTC
time of `dt`. -/
theorem c6_timestamp_handling : ∀ (fields : List (String × Json)) (n m : Int)
    (rec : WeatherInfo),
    fields.lookup "dt" = some (.num (n : ℚ)) →
    (fields.lookup "timezone" = some (.num (m : ℚ)) ∨
      (fields.lookup "timezone" = none ∧ m = 0)) →
    -62135596800 ≤ n → n ≤ 253402300799 →
    -62135596800 ≤ n + m → n + m ≤ 253402300799 →
    tdMinUs ≤ m * 1000000 → m * 1000000 ≤ tdMaxUs →
    extract_weather_information_from_json (.obj fields) = .ok rec →
    rec.date = .str (formatEpochSec (n + m)) := by
  intro fields n m rec hdt htz hn1 hn2 hs1 hs2 ht1 ht2 hok
  have hpd := pathDate_int hdt htz hn1 hn2 hs1 hs2 ht1 ht2
  have hfd : fieldDate (.obj fields) = .ok (.str (formatEpochSec (n + m))) := by
    unfold fieldDate
    rw [hpd]
    rfl
  have h5 := (extract_ok_fields hok).2.2.2.2
  have hcomb := hfd.symm.trans h5
  injection hcomb with h'
  exact h'.symm

/-- Witness for C6: payload `{"dt": 1700000000}` with `timezone` absent;
the returned record's date is the UTC time of the epoch. -/
theorem c6_timestamp_witness :
    (WeatherInfo.mk (.str "No weather data available")
        (.str "No description available") (.str "No temperature available")
        (.str "No humidity data available")
        (.str "2023-11-14 22:13:20")).date =
      .str (formatEpochSec (1700000000 + 0)) :=
  c6_timestamp_handling [("dt", .num 1700000000)] 1700000000 0 _
    (by norm_num) (Or.inr ⟨rfl, rfl⟩) (by norm_num) (by norm_num)
    (by norm_num) (by norm_num) (by norm_num [tdMinUs])
    (by norm_num [tdMaxUs]) (by rfl)

/-- On a failed fetch, client-1's `main` ends with nothing saved,
whatever the validation outcome. -/
theorem main_run_failure_cases (cfg : Client1Config) :
    client1_main_run cfg .failure = .ok ⟨false, none, none⟩ ∨
    client1_main_run cfg .failure = .ok ⟨true, none, none⟩ := by
  unfold client1_main_run
  split
  · exact Or.inl rfl
  · exact Or.inr rfl

/-- **C7.** When the Weather Fetcher fails, the Sink Writer is never
invoked in that run: client-1's `main` passes no record to `save_to_db`
(at both the `main` and whole-process level, for every environment), and
client-2's resource yields no row to the pipeline. -/
theorem c7_fetch_failure_no_sink : ∀ (cfg : Client1Config) (env : Env),
    savedOf (client1_main_run cfg .failure) = none ∧
    savedOf (client1_program env .failure) = none ∧
    weather_resource_run .failure = .ok none ∧
    (client2_program env .failure).rowLoaded = none := by
  have hmain : ∀ c : Client1Config,
      savedOf (client1_main_run c .failure) = none := by
    intro c
    rcases main_run_failure_cases c with h | h <;> rw [h] <;> rfl
  intro cfg env
  refine ⟨hmain cfg, ?_, rfl, ?_⟩
  · unfold client1_program
    cases h : client1_load_config env with
    | error e => rfl
    | ok c => exact hmain c
  · simp only [client2_program, weather_resource_run]
    split <;> rfl

/-- **C8.** The normalizer is deterministic and stateless: it is modelled
as a pure function of the payload alone (the Python function reads and
writes no module state besides logging), so two calls on the same
RawObservation give identical records. -/
theorem c8_deterministic : ∀ data : Json,
    extract_weather_information_from_json data =
      extract_weather_information_from_json data :=
  fun _ => rfl

/-- **C9.** A fetch that returns the empty JSON object `{}` is
indistinguishable from a failed fetch in client-1's `main`: the
`if data:` truthiness guard rejects it, so no normalization happens and
nothing is saved — the whole run result is equal in the two cases. -/
theorem c9_empty_payload_like_failure : ∀ cfg : Client1Config,
    client1_main_run cfg (.success (.obj [])) =
      client1_main_run cfg .failure := by
  intro cfg
  unfold client1_main_run
  split
  · rfl
  · rfl

/-- **C10.** Client-2's record construction is all-or-nothing: a yielded
row is exactly the unguarded path extractions of all five fields from
the payload (no placeholder can appear), and if the construction raises
`KeyError`, `IndexError` or `TypeError` the resource yields nothing. -/
theorem c10_all_or_nothing : ∀ data : Json,
    (∀ row, weather_resource_yield data = .ok (some row) →
      weather_resource_record data = .ok row ∧
      pathWeather data = .ok row.weather ∧
      pathDescription data = .ok row.description ∧
      pathTemperature data = .ok row.temperature ∧
      pathHumidity data = .ok row.humidity) ∧
    (∀ e, weather_resource_record data = .error e →
      e = .keyError ∨ e = .indexError ∨ e = .typeError →
      weather_resource_yield data = .ok none) := by
  intro data
  constructor
  · intro row h
    unfold weather_resource_yield at h
    cases hr : weather_resource_record data with
    | ok r =>
        simp only [hr] at h
        injection h with h'
        injection h' with h''
        subst h''
        exact ⟨rfl, resource_ok_fields hr⟩
    | error e =>
        simp only [hr] at h
        split at h <;> simp at h
  · intro e he hmem
    unfold weather_resource_yield
    simp only [he]
    rw [if_pos]
    rcases hmem with h | h | h <;> simp [h]

/-- Witness for C10 at the concrete payload `{}`: the first extraction
raises `KeyError` and the resource yields nothing. -/
theorem c10_witness : weather_resource_yield (.obj []) = .ok none :=
  (c10_all_or_nothing (.obj [])).2 .keyError rfl (Or.inl rfl)
